import Mathlib

/-!
Verification of the drag-and-drop engine in `src/context/DragDropContext.tsx`.

The repository file contains two historical variants of the engine
concatenated in one module:
* variant 1 (lines 1-697): `registerContainer` with a live-node guard,
  `calculateDropIndex`, `startDrag`, `handleMouseUp`, `performAutoScroll`;
* variant 2 (lines 699-1299): an unconditional `registerContainer`,
  `calculatePreviewIndex`, `startDrag`, `handleDrop`, and the `DragPortal`
  component with its `currentTargetRef`.

Coordinates are modelled as rationals (the browser supplies real-valued
CSS pixel coordinates; all arithmetic in the source is exact on them).
Caller callbacks are modelled by presence flags plus an explicit event
list emitted by the release handlers; DOM nodes are opaque identifiers
with an `isConnected` environment predicate.
-/

namespace ReactDnd

/-- Drag direction, `src/types` : `'horizontal' | 'vertical'`. -/
inductive Direction where
  | horizontal
  | vertical
deriving DecidableEq, Repr

/-- Bounding client rect of a visual node (the fields the engine reads). -/
structure Rect where
  left : ℚ
  top : ℚ
  width : ℚ
  height : ℚ
deriving DecidableEq, Repr

/-- Right edge of a rect, `rect.right = rect.left + rect.width`. -/
def Rect.right (r : Rect) : ℚ := r.left + r.width

/-- Bottom edge of a rect, `rect.bottom = rect.top + rect.height`. -/
def Rect.bottom (r : Rect) : ℚ := r.top + r.height

/-- Opaque DOM node identity; `isConnected` is supplied by the environment. -/
abbrev Node := Nat

/-- Callback invocations observable by the caller: `onReorder` carries
`{itemId, fromIndex, toIndex}`, `onItemMove` carries
`{itemId, fromContainerId, toContainerId, fromIndex, toIndex}`. -/
inductive Event where
  | reorder (itemId : String) (fromIndex toIndex : Int)
  | move (itemId : String) (fromContainerId toContainerId : String)
      (fromIndex toIndex : Int)
deriving DecidableEq, Repr

/-- Association-list model of a JS `Map` keyed by container id. -/
def lookupA {α : Type} (m : List (String × α)) (k : String) : Option α :=
  match m with
  | [] => none
  | (k1, v) :: rest => if k1 = k then some v else lookupA rest k

/-- `Map.set`: replace the entry in place when the key exists, append otherwise. -/
def insertA {α : Type} (m : List (String × α)) (k : String) (v : α) :
    List (String × α) :=
  match m with
  | [] => [(k, v)]
  | (k1, v1) :: rest =>
    if k1 = k then (k, v) :: rest else (k1, v1) :: insertA rest k v

/-- `Map.delete` keyed by container id. -/
def eraseA {α : Type} (m : List (String × α)) (k : String) :
    List (String × α) :=
  match m with
  | [] => []
  | (k1, v1) :: rest =>
    if k1 = k then rest else (k1, v1) :: eraseA rest k

/-- JS `Array.prototype.findIndex` on a list of ids: the index of the first
occurrence, `-1` when absent. -/
def findIndexJS (l : List String) (a : String) : Int :=
  match l with
  | [] => -1
  | x :: rest =>
    if x = a then 0
    else
      let r := findIndexJS rest a
      if r = -1 then -1 else r + 1

-- ============================================================================
-- Geometry resolver
-- ============================================================================

/-- On-axis midpoint of an item rect: `rect.left + rect.width / 2` for a
horizontal container, `rect.top + rect.height / 2` otherwise
(source lines 288 and 294, 875-877). -/
def midpointOf (isHorizontal : Bool) (r : Rect) : ℚ :=
  if isHorizontal then r.left + r.width / 2 else r.top + r.height / 2

/-- Specification-side walk of section 4.2: given a comparison point `p` and the
candidate midpoints in on-screen order, return the index of the first midpoint
`p` has not yet passed (`p < m`), or the item count when every midpoint has been
passed; an empty list yields `0`. -/
def specFirstUnpassed (p : ℚ) (mids : List ℚ) : Nat :=
  match mids with
  | [] => 0
  | m :: rest => if p < m then 0 else specFirstUnpassed p rest + 1

/-- Variant 1 `calculateDropIndex` (source lines 274-305): walk the non-dragged
draggables of the container and return the first index whose on-axis midpoint
the raw client coordinate has not reached, else the draggable count.
`direction` embeds `container.direction`; `draggables` are the bounding rects of
`getDraggableChildren` in DOM order. -/
def calculateDropIndex (clientX clientY : ℚ) (direction : Option Direction)
    (draggables : List Rect) : Nat :=
  go (decide (direction = some Direction.horizontal)) draggables
where
  /-- Loop of `calculateDropIndex` (source lines 283-302) with
  `isHorizontal = (container.direction === "horizontal")` fixed up front. -/
  go (isHorizontal : Bool) : List Rect → Nat
  | [] => 0
  | r :: rest =>
    if isHorizontal then
      if clientX < r.left + r.width / 2 then 0 else go isHorizontal rest + 1
    else
      if clientY < r.top + r.height / 2 then 0 else go isHorizontal rest + 1

/-- Ghost (portal) center along one axis: the portal is positioned at
`client - offset` (source lines 547-548, 670-671), so its center is
`client - offset + size / 2`. -/
def ghostCenter (client offset size : ℚ) : ℚ := client - offset + size / 2

/-- Trailing edge used by the spec rule: ghost-center plus half the dragged
item size along the axis (source lines 868-869). -/
def trailingEdge (center halfSize : ℚ) : ℚ := center + halfSize

-- ============================================================================
-- Variant 2 data model
-- ============================================================================

/-- Variant 2 `ContainerData` (source lines 710-717); the callbacks are
modelled by presence flags. -/
structure ContainerData where
  id : String
  direction : Option Direction
  acceptsTypes : List String
  element : Option Node
  hasOnReorder : Bool
  hasOnItemMove : Bool
deriving DecidableEq, Repr

/-- Variant 2 `OriginalItemData` entry captured at drag start: item id and
its bounding rect (source lines 753-758, index and element omitted as unused
by the resolver). -/
structure ItemData where
  id : String
  rect : Rect
deriving DecidableEq, Repr

/-- Variant 2 drag session data (source lines 768-774). -/
structure DragData2 where
  id : String
  type : String
  sourceContainerId : String
  sourceIndex : Int
  itemWidth : ℚ
  itemHeight : ℚ
deriving DecidableEq, Repr

/-- Filter of source line 860: the captured items without the dragged one. -/
def nonDragged (originalItems : List ItemData) (draggedId : String) :
    List ItemData :=
  originalItems.filter (fun item => item.id ≠ draggedId)

/-- Variant 2 `calculatePreviewIndex` (source lines 847-886). Takes the three
refs it reads (`containers`, `originalItemsRef`, `dragDataRef`) as explicit
arguments, then the call arguments `(containerId, centerX, centerY, draggedId)`.
Returns `0` when a guard fails, otherwise walks the non-dragged captured items
comparing the dragged trailing edge against each midpoint. -/
def calculatePreviewIndex (containers : List (String × ContainerData))
    (originalItemsRef : List (String × List ItemData))
    (dragDataRef : Option DragData2)
    (containerId : String) (centerX centerY : ℚ) (draggedId : String) : Nat :=
  match lookupA containers containerId, lookupA originalItemsRef containerId,
      dragDataRef with
  | some container, some originalItems, some dragData =>
    if originalItems.length = 0 then 0
    else
      let items := nonDragged originalItems draggedId
      if items.length = 0 then 0
      else
        let isHorizontal := container.direction = some Direction.horizontal
        let draggedHalfSize :=
          if isHorizontal then dragData.itemWidth / 2 else dragData.itemHeight / 2
        let dragTrailingEdge :=
          (if isHorizontal then centerX else centerY) + draggedHalfSize
        specWalk dragTrailingEdge isHorizontal items
  | _, _, _ => 0
where
  /-- Inner loop of `calculatePreviewIndex` (source lines 871-885). -/
  specWalk (dragTrailingEdge : ℚ) (isHorizontal : Bool) :
      List ItemData → Nat
  | [] => 0
  | item :: rest =>
    let itemMidpoint :=
      if isHorizontal then item.rect.left + item.rect.width / 2
      else item.rect.top + item.rect.height / 2
    if dragTrailingEdge < itemMidpoint then 0
    else specWalk dragTrailingEdge isHorizontal rest + 1

-- ============================================================================
-- Variant 1 data model and registry
-- ============================================================================

/-- Variant 1 `ContainerConfig` (source lines 18-25); the callbacks are
modelled by presence flags, `element` is a non-null node. -/
structure ContainerConfig where
  id : String
  acceptsTypes : List String
  direction : Option Direction
  element : Node
  hasOnReorder : Bool
  hasOnItemMove : Bool
deriving DecidableEq, Repr

/-- Variant 1 `registerContainer` (source lines 188-216). `isConnected` is the
environment predicate `element.isConnected`. A null element returns early; an
existing registration whose element differs from the incoming one and is still
connected is kept (the call is a no-op); otherwise the entry is set. -/
def registerContainer1 (isConnected : Node → Bool)
    (containers : List (String × ContainerConfig))
    (id : String) (acceptsTypes : List String) (direction : Option Direction)
    (element : Option Node) (hasOnReorder hasOnItemMove : Bool) :
    List (String × ContainerConfig) :=
  match element with
  | none => containers
  | some el =>
    let existing := lookupA containers id
    match existing with
    | some ex =>
      if ex.element ≠ el ∧ isConnected ex.element then containers
      else insertA containers id
        ⟨id, acceptsTypes, direction, el, hasOnReorder, hasOnItemMove⟩
    | none => insertA containers id
        ⟨id, acceptsTypes, direction, el, hasOnReorder, hasOnItemMove⟩

/-- Variant 2 `registerContainer` (source lines 788-800): an unconditional
`Map.set`, storing the possibly-null element as given. -/
def registerContainer2 (containers : List (String × ContainerData))
    (id : String) (acceptsTypes : List String) (direction : Option Direction)
    (element : Option Node) (hasOnReorder hasOnItemMove : Bool) :
    List (String × ContainerData) :=
  insertA containers id
    ⟨id, direction, acceptsTypes, element, hasOnReorder, hasOnItemMove⟩

/-- Specification-side registration contract, written from section 4.1:
"`register(config)` idempotent upsert keyed by `id`, rejected (no-op) if an
existing live node for that id is still attached and differs from the incoming
node". -/
def registerSpec (attached : Node → Bool)
    (containers : List (String × ContainerConfig))
    (id : String) (acceptsTypes : List String) (direction : Option Direction)
    (el : Node) (hasOnReorder hasOnItemMove : Bool) :
    List (String × ContainerConfig) :=
  match lookupA containers id with
  | some existing =>
    if existing.element ≠ el ∧ attached existing.element then containers
    else insertA containers id
      ⟨id, acceptsTypes, direction, el, hasOnReorder, hasOnItemMove⟩
  | none => insertA containers id
      ⟨id, acceptsTypes, direction, el, hasOnReorder, hasOnItemMove⟩

-- ============================================================================
-- Variant 1 session state machine
-- ============================================================================

/-- Variant 1 `DragData` (source lines 34-46): the session snapshot taken at
pointer-down (fields not read by the release path are omitted). -/
structure DragData1 where
  id : String
  type : String
  sourceContainerId : String
  sourceIndex : Int
deriving DecidableEq, Repr

/-- Variant 1 `DropTarget` (source lines 48-51). The index is an integer
because `startDrag` seeds it from a JS `findIndex` result. -/
structure DropTarget where
  containerId : String
  index : Int
deriving DecidableEq, Repr

/-- DOM-side facts about the dragged element that the engine touches: its
`style.display` suppression, and its (never rewritten) position in its original
container, plus the placeholder node location. -/
structure DomFlags where
  draggedHidden : Bool
  draggedElemContainer : String
  draggedElemIndex : Nat
  placeholder : Option (String × Int)
deriving DecidableEq, Repr

/-- Variant 1 provider state: the container registry, the current session,
the current drop target and the DOM flags. -/
structure EngineState1 where
  containers : List (String × ContainerConfig)
  dragData : Option DragData1
  dropTarget : Option DropTarget
  dom : DomFlags
deriving DecidableEq, Repr

/-- Variant 1 `startDrag` (source lines 467-536). `childrenOf` is the DOM
query `getDraggableChildren(container.element, null)` as a map from container
id to the ordered `data-id` list. There is no active-session guard: the session
snapshot, the drop target and the DOM flags are overwritten unconditionally. -/
def startDrag1 (childrenOf : String → List String) (s : EngineState1)
    (id type containerId : String) : EngineState1 :=
  let container := lookupA s.containers containerId
  let sourceIndex : Int :=
    match container with
    | some _ => findIndexJS (childrenOf containerId) id
    | none => 0
  { s with
    dragData := some ⟨id, type, containerId, sourceIndex⟩,
    dropTarget := some ⟨containerId, sourceIndex⟩,
    dom := { s.dom with
      draggedHidden := true,
      placeholder :=
        match container with
        | some _ => some (containerId, sourceIndex)
        | none => s.dom.placeholder } }

/-- Variant 1 `updateDropTarget` (source lines 310-366). The hit test
`findTargetContainer` result is passed as `hit`: the eligible container id,
its direction, and the bounding rects of its non-dragged draggables. With no
eligible container under the cursor the placeholder is removed and the drop
target cleared; otherwise the drop target is set to the calculated index and
the placeholder placed there. -/
def updateDropTarget1 (s : EngineState1) (clientX clientY : ℚ)
    (hit : Option (String × Option Direction × List Rect)) : EngineState1 :=
  match s.dragData with
  | none => s
  | some _ =>
    match hit with
    | none =>
      { s with dropTarget := none, dom := { s.dom with placeholder := none } }
    | some (cid, dir, rects) =>
      let dropIndex : Int := calculateDropIndex clientX clientY dir rects
      { s with dropTarget := some ⟨cid, dropIndex⟩,
               dom := { s.dom with placeholder := some (cid, dropIndex) } }

/-- Variant 1 `handleMouseUp` (source lines 560-613): with no session it is a
no-op; otherwise it fires at most one callback according to the resolved drop
target, restores the dragged element's visibility, removes the placeholder and
clears the session and the drop target. Returns the new state and the list of
callback invocations. -/
def handleMouseUp1 (s : EngineState1) : EngineState1 × List Event :=
  match s.dragData with
  | none => (s, [])
  | some dragData =>
    let events : List Event :=
      match s.dropTarget with
      | none => []
      | some dropTarget =>
        match lookupA s.containers dropTarget.containerId with
        | none => []
        | some targetContainer =>
          if dropTarget.containerId = dragData.sourceContainerId then
            if dragData.sourceIndex ≠ dropTarget.index then
              if targetContainer.hasOnReorder then
                [Event.reorder dragData.id dragData.sourceIndex dropTarget.index]
              else []
            else []
          else
            if targetContainer.hasOnItemMove then
              [Event.move dragData.id dragData.sourceContainerId
                dropTarget.containerId dragData.sourceIndex dropTarget.index]
            else []
    ({ s with
        dragData := none,
        dropTarget := none,
        dom := { s.dom with draggedHidden := false, placeholder := none } },
      events)

-- ============================================================================
-- Variant 2 session state machine
-- ============================================================================

/-- Variant 2 provider state: registry, session ref, captured original
positions, preview state and the set of elements carrying transforms. -/
structure EngineState2 where
  containers : List (String × ContainerData)
  dragData : Option DragData2
  originalItems : List (String × List ItemData)
  previewContainerId : Option String
  previewIndex : Int
  transformed : List String
  isDragging : Bool
deriving DecidableEq, Repr

/-- Variant 2 `captureOriginalPositions` (source lines 807-827): for every
registered container with a live element accepting the dragged type, snapshot
its items; `domItems` is the DOM query for a container's draggables in order. -/
def captureOriginalPositions (domItems : String → List ItemData)
    (containers : List (String × ContainerData)) (draggedType : String) :
    List (String × List ItemData) :=
  containers.filterMap (fun p =>
    if p.2.element.isSome ∧ draggedType ∈ p.2.acceptsTypes then
      some (p.1, domItems p.1)
    else none)

/-- Variant 2 `startDrag` (source lines 1074-1113): captures original
positions, derives the source index from them (JS `findIndex(...) ?? 0`: `0`
only when the container was not captured, `-1` when the id is missing), and
overwrites the session ref with no active-session guard. `itemWidth` and
`itemHeight` come from `element.getBoundingClientRect()`. -/
def startDrag2 (domItems : String → List ItemData) (s : EngineState2)
    (id type containerId : String) (itemWidth itemHeight : ℚ) : EngineState2 :=
  let captured := captureOriginalPositions domItems s.containers type
  let sourceIndex : Int :=
    match lookupA captured containerId with
    | some sourceItems => findIndexJS (sourceItems.map (fun it => it.id)) id
    | none => 0
  { s with
    originalItems := captured,
    dragData := some ⟨id, type, containerId, sourceIndex, itemWidth, itemHeight⟩,
    previewContainerId := some containerId,
    previewIndex := sourceIndex,
    isDragging := true }

/-- Variant 2 `handleDrop` (source lines 1034-1072): fires `onReorder` only for
a same-container drop with a changed index and a registered callback, fires
`onItemMove` for any cross-container drop with a registered callback, fires
nothing without a session or a target; then clears transforms, session,
captured positions and preview state. -/
def handleDrop2 (s : EngineState2) (targetContainerId : Option String)
    (previewIndex : Int) : EngineState2 × List Event :=
  let events : List Event :=
    match s.dragData, targetContainerId with
    | some dragData, some targetId =>
      if targetId = dragData.sourceContainerId then
        match lookupA s.containers dragData.sourceContainerId with
        | some sourceContainer =>
          if previewIndex ≠ dragData.sourceIndex ∧ sourceContainer.hasOnReorder
          then [Event.reorder dragData.id dragData.sourceIndex previewIndex]
          else []
        | none => []
      else
        match lookupA s.containers targetId with
        | some targetContainer =>
          if targetContainer.hasOnItemMove then
            [Event.move dragData.id dragData.sourceContainerId targetId
              dragData.sourceIndex previewIndex]
          else []
        | none => []
    | _, _ => []
  ({ s with
      transformed := [],
      isDragging := false,
      dragData := none,
      originalItems := [],
      previewContainerId := none,
      previewIndex := -1 },
    events)

/-- The `DragPortal` `currentTargetRef` (source lines 1168-1171): the target
container id and the preview index most recently computed by a mouse move. -/
structure PortalTarget where
  containerId : Option String
  previewIndex : Int
deriving DecidableEq, Repr

/-- Initial value of `currentTargetRef` at portal mount (source lines
1168-1171): the source container with preview index `-1`. -/
def initialPortalTarget (sourceContainerId : String) : PortalTarget :=
  ⟨some sourceContainerId, -1⟩

/-- The `DragPortal` mouse-up handler (source lines 1255-1260): calls
`onDrop` with whatever `currentTargetRef` currently holds. -/
def portalMouseUp (s : EngineState2) (target : PortalTarget) :
    EngineState2 × List Event :=
  handleDrop2 s target.containerId target.previewIndex

-- ============================================================================
-- Auto-scroll controller (variant 1, source lines 375-437)
-- ============================================================================

/-- `SCROLL_THRESHOLD` (source line 79). -/
def SCROLL_THRESHOLD : ℚ := 60

/-- `SCROLL_SPEED` of variant 1 (source line 80). -/
def SCROLL_SPEED : ℚ := 12

/-- One element examined by `performAutoScroll`: its overflow scrollability
flags (from computed style), scroll metrics and bounding rect. -/
structure ScrollEl where
  vScrollable : Bool
  hScrollable : Bool
  scrollTop : ℚ
  scrollLeft : ℚ
  scrollHeight : ℚ
  clientHeight : ℚ
  scrollWidth : ℚ
  clientWidth : ℚ
  rectTop : ℚ
  rectBottom : ℚ
  rectLeft : ℚ
  rectRight : ℚ
deriving DecidableEq, Repr

/-- Greatest value the DOM allows for `scrollTop`. -/
def ScrollEl.maxScrollTop (el : ScrollEl) : ℚ :=
  max 0 (el.scrollHeight - el.clientHeight)

/-- Greatest value the DOM allows for `scrollLeft`. -/
def ScrollEl.maxScrollLeft (el : ScrollEl) : ℚ :=
  max 0 (el.scrollWidth - el.clientWidth)

/-- Vertical-edge check of `performAutoScroll` (source lines 396-409): near the
top edge with scroll-up room, decrease `scrollTop` by `SCROLL_SPEED`; near the
bottom edge with scroll-down room, increase it; the DOM clamps the assigned
value into `[0, maxScrollTop]`. Returns the updated element and whether it
scrolled. -/
def scrollVStep (y : ℚ) (el : ScrollEl) : ScrollEl × Bool :=
  if el.vScrollable then
    let canScrollUp := 0 < el.scrollTop
    let canScrollDown := el.scrollTop < el.scrollHeight - el.clientHeight
    if y < el.rectTop + SCROLL_THRESHOLD ∧ canScrollUp then
      ({ el with scrollTop := max 0 (el.scrollTop - SCROLL_SPEED) }, true)
    else if el.rectBottom - SCROLL_THRESHOLD < y ∧ canScrollDown then
      ({ el with scrollTop := min el.maxScrollTop (el.scrollTop + SCROLL_SPEED) },
        true)
    else (el, false)
  else (el, false)

/-- Horizontal-edge check of `performAutoScroll` (source lines 412-425),
mirror of `scrollVStep` on `scrollLeft`. -/
def scrollHStep (x : ℚ) (el : ScrollEl) : ScrollEl × Bool :=
  if el.hScrollable then
    let canScrollLeft := 0 < el.scrollLeft
    let canScrollRight := el.scrollLeft < el.scrollWidth - el.clientWidth
    if x < el.rectLeft + SCROLL_THRESHOLD ∧ canScrollLeft then
      ({ el with scrollLeft := max 0 (el.scrollLeft - SCROLL_SPEED) }, true)
    else if el.rectRight - SCROLL_THRESHOLD < x ∧ canScrollRight then
      ({ el with
          scrollLeft := min el.maxScrollLeft (el.scrollLeft + SCROLL_SPEED) },
        true)
    else (el, false)
  else (el, false)

/-- Loop body of `performAutoScroll` for one element under the cursor
(source lines 380-425): non-scrollable elements are skipped; otherwise both
the vertical and the horizontal edge checks run, and `didScroll` records
whether either adjusted an offset. -/
def scrollElementStep (x y : ℚ) (el : ScrollEl) : ScrollEl × Bool :=
  if el.vScrollable = false ∧ el.hScrollable = false then (el, false)
  else
    let v := scrollVStep y el
    let h := scrollHStep x v.1
    (h.1, v.2 || h.2)

/-- Variant 1 `performAutoScroll` (source lines 375-437) on one frame:
walk the elements under the cursor in order; the first element that scrolls
ends the walk (`if (didScroll) break`), so later elements are untouched.
Returns the updated element list and the `didScroll` flag. -/
def performAutoScroll (x y : ℚ) : List ScrollEl → List ScrollEl × Bool
  | [] => ([], false)
  | el :: rest =>
    let r := scrollElementStep x y el
    if r.2 then (r.1 :: rest, true)
    else
      let tail := performAutoScroll x y rest
      (el :: tail.1, tail.2)

-- ============================================================================
-- Helper lemmas: geometry resolver
-- ============================================================================

/-- The walk of section 4.2 is monotone in the comparison point. -/
theorem specFirstUnpassed_mono {p q : ℚ} (h : p ≤ q) (l : List ℚ) :
    specFirstUnpassed p l ≤ specFirstUnpassed q l := by
  induction l with
  | nil => exact Nat.le_refl 0
  | cons m rest ih =>
    by_cases hq : q < m
    · have hp : p < m := lt_of_le_of_lt h hq
      simp [specFirstUnpassed, hp, hq]
    · by_cases hp : p < m
      · simp [specFirstUnpassed, hp, hq]
      · simpa [specFirstUnpassed, hp, hq] using Nat.succ_le_succ ih

/-- The walk never exceeds the candidate count. -/
theorem specFirstUnpassed_le_length (p : ℚ) (l : List ℚ) :
    specFirstUnpassed p l ≤ l.length := by
  induction l with
  | nil => exact Nat.le_refl 0
  | cons m rest ih =>
    by_cases hp : p < m
    · simp [specFirstUnpassed, hp]
    · simpa [specFirstUnpassed, hp] using Nat.succ_le_succ ih

/-- Variant 1 `calculateDropIndex` is the section 4.2 walk with the raw client
coordinate of the container's axis as the comparison point. -/
theorem calculateDropIndex_go_eq_spec (clientX clientY : ℚ) (isHorizontal : Bool)
    (rects : List Rect) :
    calculateDropIndex.go clientX clientY isHorizontal rects =
      specFirstUnpassed (if isHorizontal then clientX else clientY)
        (rects.map (midpointOf isHorizontal)) := by
  induction rects with
  | nil => cases isHorizontal <;> rfl
  | cons r rest ih =>
    cases isHorizontal <;>
      simp [calculateDropIndex.go, specFirstUnpassed, midpointOf, ih]

/-- Variant 1 `calculateDropIndex` restated: the comparison point is the raw
client coordinate of the container's axis. -/
theorem calculateDropIndex_eq_spec (clientX clientY : ℚ)
    (direction : Option Direction) (rects : List Rect) :
    calculateDropIndex clientX clientY direction rects =
      specFirstUnpassed
        (if direction = some Direction.horizontal then clientX else clientY)
        (rects.map (midpointOf (decide (direction = some Direction.horizontal)))) := by
  by_cases hd : direction = some Direction.horizontal <;>
    simp [calculateDropIndex, calculateDropIndex_go_eq_spec, hd]

/-- The inner loop of `calculatePreviewIndex` is the section 4.2 walk over the
item midpoints. -/
theorem specWalk_eq_spec (p : ℚ) (isHorizontal : Bool) (items : List ItemData) :
    calculatePreviewIndex.specWalk p isHorizontal items =
      specFirstUnpassed p (items.map (fun it => midpointOf isHorizontal it.rect)) := by
  induction items with
  | nil => rfl
  | cons it rest ih =>
    cases isHorizontal <;>
      simp [calculatePreviewIndex.specWalk, specFirstUnpassed, midpointOf, ih]

/-- Variant 2 `calculatePreviewIndex` restated: once the container, the
captured positions and the session data are found, the result is the section
4.2 walk with the dragged trailing edge (ghost center plus half the dragged
size on the container's axis) as the comparison point, over the non-dragged
captured items. -/
theorem calculatePreviewIndex_eq_spec (containers : List (String × ContainerData))
    (originalItemsRef : List (String × List ItemData))
    (dragDataRef : Option DragData2) (containerId : String) (centerX centerY : ℚ)
    (draggedId : String) (c : ContainerData) (items0 : List ItemData)
    (dd : DragData2)
    (h1 : lookupA containers containerId = some c)
    (h2 : lookupA originalItemsRef containerId = some items0)
    (h3 : dragDataRef = some dd) :
    calculatePreviewIndex containers originalItemsRef dragDataRef containerId
        centerX centerY draggedId =
      specFirstUnpassed
        (trailingEdge
          (if c.direction = some Direction.horizontal then centerX else centerY)
          (if c.direction = some Direction.horizontal then dd.itemWidth / 2
            else dd.itemHeight / 2))
        ((nonDragged items0 draggedId).map
          (fun it => midpointOf
            (decide (c.direction = some Direction.horizontal)) it.rect)) := by
  subst h3
  simp only [calculatePreviewIndex, h1, h2]
  by_cases hlen : items0.length = 0
  · rw [List.length_eq_zero] at hlen
    subst hlen
    simp [nonDragged, specFirstUnpassed]
  · rw [if_neg hlen]
    by_cases hflen : (nonDragged items0 draggedId).length = 0
    · rw [if_pos hflen]
      rw [List.length_eq_zero] at hflen
      rw [hflen]
      simp [specFirstUnpassed]
    · rw [if_neg hflen, specWalk_eq_spec, trailingEdge]

/-- Variant 2 `calculatePreviewIndex` is monotone in the ghost-center
coordinates, whatever the refs hold. -/
theorem calculatePreviewIndex_mono (containers : List (String × ContainerData))
    (originalItemsRef : List (String × List ItemData))
    (dragDataRef : Option DragData2) (containerId draggedId : String)
    {centerX centerX' centerY centerY' : ℚ}
    (hx : centerX ≤ centerX') (hy : centerY ≤ centerY') :
    calculatePreviewIndex containers originalItemsRef dragDataRef containerId
        centerX centerY draggedId ≤
      calculatePreviewIndex containers originalItemsRef dragDataRef containerId
        centerX' centerY' draggedId := by
  simp only [calculatePreviewIndex]
  cases hc : lookupA containers containerId with
  | none => exact Nat.le_refl 0
  | some c =>
    cases ho : lookupA originalItemsRef containerId with
    | none => cases dragDataRef <;> exact Nat.le_refl 0
    | some items0 =>
      cases hd : dragDataRef with
      | none => exact Nat.le_refl 0
      | some dd =>
        dsimp only
        by_cases hlen : items0.length = 0
        · rw [if_pos hlen, if_pos hlen]
        · rw [if_neg hlen, if_neg hlen]
          by_cases hflen : (nonDragged items0 draggedId).length = 0
          · rw [if_pos hflen, if_pos hflen]
          · rw [if_neg hflen, if_neg hflen, specWalk_eq_spec, specWalk_eq_spec]
            apply specFirstUnpassed_mono
            by_cases hdir : c.direction = some Direction.horizontal
            · simp only [hdir, if_pos]
              exact add_le_add_right hx _
            · simp only [if_neg hdir]
              exact add_le_add_right hy _

-- ============================================================================
-- Claim C2 (drop-index resolution uses the trailing edge)
-- ============================================================================

/-- Claim C2 counterexample: the claim states that every drop-index resolution
compares the dragged item's trailing edge (ghost center plus half the dragged
size, not the raw pointer point) against the candidate midpoints. For variant 1
`calculateDropIndex` this is false at a concrete input: one vertical candidate
with midpoint `50`, pointer grabbed at the item's top edge (`offsetY = 0`),
dragged height `40`, pointer at `clientY = 45`. The trailing edge is
`45 - 0 + 40 = 85`, past the midpoint, so the claimed rule yields `1`; the code
compares the raw `clientY = 45 < 50` and returns `0`. -/
theorem C2_counterexample :
    calculateDropIndex 0 45 (some Direction.vertical) [⟨0, 0, 100, 100⟩] = 0 ∧
    specFirstUnpassed (trailingEdge (ghostCenter 45 0 40) (40 / 2))
        (List.map (midpointOf false) [(⟨0, 0, 100, 100⟩ : Rect)]) = 1 ∧
    calculateDropIndex 0 45 (some Direction.vertical) [⟨0, 0, 100, 100⟩] ≠
      specFirstUnpassed (trailingEdge (ghostCenter 45 0 40) (40 / 2))
        (List.map (midpointOf false) [(⟨0, 0, 100, 100⟩ : Rect)]) := by
  refine ⟨?_, ?_, ?_⟩ <;>
    norm_num [calculateDropIndex, calculateDropIndex.go, specFirstUnpassed,
      trailingEdge, ghostCenter, midpointOf]

/-- Claim C2, amended: variant 2 `calculatePreviewIndex` resolves the insertion
index as the first non-dragged item (in captured order) whose on-axis midpoint
the dragged item's trailing edge (ghost center plus half the dragged size) has
not yet passed, else the non-dragged count, and an empty container yields `0`;
variant 1 `calculateDropIndex` performs the same walk but compares the raw
client coordinate instead of the trailing edge (also yielding `0` on an empty
container). -/
theorem C2_amended_comparison_points (clientX clientY : ℚ)
    (direction : Option Direction) (rects : List Rect)
    (containers : List (String × ContainerData))
    (originalItemsRef : List (String × List ItemData))
    (dragDataRef : Option DragData2) (containerId : String) (centerX centerY : ℚ)
    (draggedId : String) (c : ContainerData) (items0 : List ItemData)
    (dd : DragData2)
    (h1 : lookupA containers containerId = some c)
    (h2 : lookupA originalItemsRef containerId = some items0)
    (h3 : dragDataRef = some dd) :
    calculatePreviewIndex containers originalItemsRef dragDataRef containerId
        centerX centerY draggedId =
      specFirstUnpassed
        (trailingEdge
          (if c.direction = some Direction.horizontal then centerX else centerY)
          (if c.direction = some Direction.horizontal then dd.itemWidth / 2
            else dd.itemHeight / 2))
        ((nonDragged items0 draggedId).map
          (fun it => midpointOf
            (decide (c.direction = some Direction.horizontal)) it.rect)) ∧
    calculateDropIndex clientX clientY direction rects =
      specFirstUnpassed
        (if direction = some Direction.horizontal then clientX else clientY)
        (rects.map (midpointOf (decide (direction = some Direction.horizontal)))) ∧
    calculateDropIndex clientX clientY direction [] = 0 :=
  ⟨calculatePreviewIndex_eq_spec containers originalItemsRef dragDataRef
      containerId centerX centerY draggedId c items0 dd h1 h2 h3,
    calculateDropIndex_eq_spec clientX clientY direction rects,
    rfl⟩

/-- Container, captured items and session used to instantiate C2 and C10. -/
def exContainer : ContainerData :=
  ⟨"col", some Direction.vertical, ["card"], some 0, true, true⟩

/-- Captured positions for the example column: two stacked 100x40 items. -/
def exItems : List ItemData :=
  [⟨"a", ⟨0, 0, 100, 40⟩⟩, ⟨"b", ⟨0, 40, 100, 40⟩⟩]

/-- Session data for the example drag of item `a`. -/
def exDragData : DragData2 := ⟨"a", "card", "col", 0, 100, 40⟩

/-- Claim C2 witness: at ghost center `65` the trailing edge `85` has passed
the only non-dragged midpoint `60`, so the preview index is `1`; the raw-point
variant at `clientY = 45` returns `0` before the `50` midpoint. -/
theorem C2_amended_witness :
    calculatePreviewIndex [("col", exContainer)] [("col", exItems)]
        (some exDragData) "col" 50 65 "a" = 1 ∧
    calculateDropIndex 0 45 (some Direction.vertical) [⟨0, 0, 100, 100⟩] = 0 := by
  have h := C2_amended_comparison_points 0 45 (some Direction.vertical)
    [⟨0, 0, 100, 100⟩] [("col", exContainer)] [("col", exItems)]
    (some exDragData) "col" 50 65 "a" exContainer exItems exDragData
    (by simp [lookupA]) (by simp [lookupA]) rfl
  have hdir : Direction.vertical ≠ Direction.horizontal := fun hc =>
    Direction.noConfusion hc
  refine ⟨h.1.trans ?_, h.2.1.trans ?_⟩ <;>
    norm_num [exContainer, exItems, exDragData, nonDragged, specFirstUnpassed,
      trailingEdge, midpointOf, List.filter, hdir]

-- ============================================================================
-- Claim C10 (resolver monotone in the comparison coordinate)
-- ============================================================================

/-- Claim C10: with the candidate geometry held constant, both resolvers are
monotone non-decreasing in the on-axis comparison coordinate: moving the
pointer (respectively the ghost center) further along the axis never yields a
strictly smaller insertion index. -/
theorem C10_resolver_monotone (clientX clientX' clientY clientY' : ℚ)
    (direction : Option Direction) (rects : List Rect)
    (containers : List (String × ContainerData))
    (originalItemsRef : List (String × List ItemData))
    (dragDataRef : Option DragData2) (containerId draggedId : String)
    (centerX centerX' centerY centerY' : ℚ)
    (hx1 : clientX ≤ clientX') (hy1 : clientY ≤ clientY')
    (hx2 : centerX ≤ centerX') (hy2 : centerY ≤ centerY') :
    calculateDropIndex clientX clientY direction rects ≤
      calculateDropIndex clientX' clientY' direction rects ∧
    calculatePreviewIndex containers originalItemsRef dragDataRef containerId
        centerX centerY draggedId ≤
      calculatePreviewIndex containers originalItemsRef dragDataRef containerId
        centerX' centerY' draggedId := by
  constructor
  · rw [calculateDropIndex_eq_spec, calculateDropIndex_eq_spec]
    apply specFirstUnpassed_mono
    by_cases hd : direction = some Direction.horizontal <;> simp [hd, hx1, hy1]
  · exact calculatePreviewIndex_mono containers originalItemsRef dragDataRef
      containerId draggedId hx2 hy2

/-- Claim C10 witness: a concrete monotone instance on the example column. -/
theorem C10_monotone_witness :
    (0 : ℚ) ≤ 100 ∧ (45 : ℚ) ≤ 200 ∧
    calculateDropIndex 50 0 (some Direction.vertical)
        [⟨0, 0, 100, 40⟩, ⟨0, 40, 100, 40⟩] ≤
      calculateDropIndex 50 100 (some Direction.vertical)
        [⟨0, 0, 100, 40⟩, ⟨0, 40, 100, 40⟩] ∧
    calculatePreviewIndex [("col", exContainer)] [("col", exItems)]
        (some exDragData) "col" 50 45 "a" ≤
      calculatePreviewIndex [("col", exContainer)] [("col", exItems)]
        (some exDragData) "col" 50 200 "a" := by
  refine ⟨by norm_num, by norm_num, ?_, ?_⟩
  · exact (C10_resolver_monotone 50 50 0 100 (some Direction.vertical)
      [⟨0, 0, 100, 40⟩, ⟨0, 40, 100, 40⟩] [("col", exContainer)]
      [("col", exItems)] (some exDragData) "col" "a" 50 50 45 200
      (le_refl _) (by norm_num) (le_refl _) (by norm_num)).1
  · exact (C10_resolver_monotone 50 50 0 100 (some Direction.vertical)
      [⟨0, 0, 100, 40⟩, ⟨0, 40, 100, 40⟩] [("col", exContainer)]
      [("col", exItems)] (some exDragData) "col" "a" 50 50 45 200
      (le_refl _) (by norm_num) (le_refl _) (by norm_num)).2

-- ============================================================================
-- Helper lemmas: release handlers
-- ============================================================================

/-- Inversion for the variant 1 release handler: either no callback fires, or
exactly one `onReorder` fires (same container, changed index, callback
registered), or exactly one `onItemMove` fires (different container, callback
registered). -/
theorem handleMouseUp1_events_shape (s : EngineState1) :
    (handleMouseUp1 s).2 = [] ∨
    (∃ dd dt tc, s.dragData = some dd ∧ s.dropTarget = some dt ∧
      lookupA s.containers dt.containerId = some tc ∧
      dt.containerId = dd.sourceContainerId ∧ dd.sourceIndex ≠ dt.index ∧
      tc.hasOnReorder = true ∧
      (handleMouseUp1 s).2 = [Event.reorder dd.id dd.sourceIndex dt.index]) ∨
    (∃ dd dt tc, s.dragData = some dd ∧ s.dropTarget = some dt ∧
      lookupA s.containers dt.containerId = some tc ∧
      dt.containerId ≠ dd.sourceContainerId ∧ tc.hasOnItemMove = true ∧
      (handleMouseUp1 s).2 =
        [Event.move dd.id dd.sourceContainerId dt.containerId
          dd.sourceIndex dt.index]) := by
  cases hd : s.dragData with
  | none => exact Or.inl (by simp [handleMouseUp1, hd])
  | some dd =>
    cases ht : s.dropTarget with
    | none => exact Or.inl (by simp [handleMouseUp1, hd, ht])
    | some dt =>
      cases hl : lookupA s.containers dt.containerId with
      | none => exact Or.inl (by simp [handleMouseUp1, hd, ht, hl])
      | some tc =>
        by_cases hsame : dt.containerId = dd.sourceContainerId
        · have hl2 : lookupA s.containers dd.sourceContainerId = some tc :=
            hsame ▸ hl
          by_cases hne : dd.sourceIndex = dt.index
          · exact Or.inl (by simp [handleMouseUp1, hd, ht, hl2, hsame, hne])
          · by_cases hr : tc.hasOnReorder = true
            · exact Or.inr (Or.inl ⟨dd, dt, tc, rfl, rfl, hl, hsame, hne, hr,
                by simp [handleMouseUp1, hd, ht, hl2, hsame, hne, hr]⟩)
            · exact Or.inl
                (by simp [handleMouseUp1, hd, ht, hl2, hsame, hne, hr])
        · by_cases hm : tc.hasOnItemMove = true
          · exact Or.inr (Or.inr ⟨dd, dt, tc, rfl, rfl, hl, hsame, hm,
              by simp [handleMouseUp1, hd, ht, hl, hsame, hm]⟩)
          · exact Or.inl (by simp [handleMouseUp1, hd, ht, hl, hsame, hm])

/-- Inversion for the variant 2 release handler, mirror of
`handleMouseUp1_events_shape`. -/
theorem handleDrop2_events_shape (s : EngineState2) (tgt : Option String)
    (idx : Int) :
    (handleDrop2 s tgt idx).2 = [] ∨
    (∃ dd sc, s.dragData = some dd ∧ tgt = some dd.sourceContainerId ∧
      lookupA s.containers dd.sourceContainerId = some sc ∧
      idx ≠ dd.sourceIndex ∧ sc.hasOnReorder = true ∧
      (handleDrop2 s tgt idx).2 = [Event.reorder dd.id dd.sourceIndex idx]) ∨
    (∃ dd targetId tc, s.dragData = some dd ∧ tgt = some targetId ∧
      targetId ≠ dd.sourceContainerId ∧ lookupA s.containers targetId = some tc ∧
      tc.hasOnItemMove = true ∧
      (handleDrop2 s tgt idx).2 =
        [Event.move dd.id dd.sourceContainerId targetId dd.sourceIndex idx]) := by
  cases hd : s.dragData with
  | none => exact Or.inl (by simp [handleDrop2, hd])
  | some dd =>
    cases htgt : tgt with
    | none => exact Or.inl (by simp [handleDrop2, hd])
    | some targetId =>
      by_cases hsame : targetId = dd.sourceContainerId
      · subst hsame
        cases hl : lookupA s.containers dd.sourceContainerId with
        | none => exact Or.inl (by simp [handleDrop2, hd, hl])
        | some sc =>
          by_cases hidx : idx = dd.sourceIndex
          · exact Or.inl (by simp [handleDrop2, hd, hl, hidx])
          · by_cases hr : sc.hasOnReorder = true
            · exact Or.inr (Or.inl ⟨dd, sc, rfl, rfl, hl, hidx, hr,
                by simp [handleDrop2, hd, hl, hidx, hr]⟩)
            · exact Or.inl (by simp [handleDrop2, hd, hl, hidx, hr])
      · cases hl : lookupA s.containers targetId with
        | none => exact Or.inl (by simp [handleDrop2, hd, hsame, hl])
        | some tc =>
          by_cases hm : tc.hasOnItemMove = true
          · exact Or.inr (Or.inr ⟨dd, targetId, tc, rfl, rfl, hsame, hl, hm,
              by simp [handleDrop2, hd, hsame, hl, hm]⟩)
          · exact Or.inl (by simp [handleDrop2, hd, hsame, hl, hm])

/-- The variant 1 release handler clears the session. -/
theorem handleMouseUp1_clears_session (s : EngineState1) :
    (handleMouseUp1 s).1.dragData = none := by
  cases hd : s.dragData <;> simp [handleMouseUp1, hd]

/-- The variant 2 release handler clears the session. -/
theorem handleDrop2_clears_session (s : EngineState2) (tgt : Option String)
    (idx : Int) : (handleDrop2 s tgt idx).1.dragData = none := by
  simp [handleDrop2]

/-- Without a session the variant 1 release handler fires nothing. -/
theorem handleMouseUp1_no_session (s : EngineState1)
    (h : s.dragData = none) : (handleMouseUp1 s).2 = [] := by
  simp [handleMouseUp1, h]

/-- Without a session the variant 2 release handler fires nothing. -/
theorem handleDrop2_no_session (s : EngineState2) (tgt : Option String)
    (idx : Int) (h : s.dragData = none) : (handleDrop2 s tgt idx).2 = [] := by
  cases tgt <;> simp [handleDrop2, h]

-- ============================================================================
-- Claim C1 (exactly one callback per completed gesture)
-- ============================================================================

/-- Claim C1: for every release, the fired callback list is empty, or a single
`onReorder`, or a single `onItemMove` — never more than one invocation and
never both kinds; and a repeated release on the already-cleared state fires
nothing more, so the bound holds per completed gesture. Stated for both
variants (`handleMouseUp` and `handleDrop`). -/
theorem C1_exactly_one_callback_per_gesture (s1 : EngineState1)
    (s2 : EngineState2) (tgt tgt2 : Option String) (idx idx2 : Int) :
    ((handleMouseUp1 s1).2 = [] ∨
      (∃ i f t, (handleMouseUp1 s1).2 = [Event.reorder i f t]) ∨
      (∃ i fc tc f t, (handleMouseUp1 s1).2 = [Event.move i fc tc f t])) ∧
    ((handleDrop2 s2 tgt idx).2 = [] ∨
      (∃ i f t, (handleDrop2 s2 tgt idx).2 = [Event.reorder i f t]) ∨
      (∃ i fc tc f t, (handleDrop2 s2 tgt idx).2 = [Event.move i fc tc f t])) ∧
    (handleMouseUp1 (handleMouseUp1 s1).1).2 = [] ∧
    (handleDrop2 (handleDrop2 s2 tgt idx).1 tgt2 idx2).2 = [] := by
  refine ⟨?_, ?_, ?_, ?_⟩
  · rcases handleMouseUp1_events_shape s1 with h |
      ⟨dd, dt, tc, _, _, _, _, _, _, hev⟩ | ⟨dd, dt, tc, _, _, _, _, _, hev⟩
    · exact Or.inl h
    · exact Or.inr (Or.inl ⟨dd.id, dd.sourceIndex, dt.index, hev⟩)
    · exact Or.inr (Or.inr ⟨dd.id, dd.sourceContainerId, dt.containerId,
        dd.sourceIndex, dt.index, hev⟩)
  · rcases handleDrop2_events_shape s2 tgt idx with h |
      ⟨dd, sc, _, _, _, _, _, hev⟩ | ⟨dd, targetId, tc, _, _, _, _, _, hev⟩
    · exact Or.inl h
    · exact Or.inr (Or.inl ⟨dd.id, dd.sourceIndex, idx, hev⟩)
    · exact Or.inr (Or.inr ⟨dd.id, dd.sourceContainerId, targetId,
        dd.sourceIndex, idx, hev⟩)
  · exact handleMouseUp1_no_session _ (handleMouseUp1_clears_session s1)
  · exact handleDrop2_no_session _ tgt2 idx2 (handleDrop2_clears_session s2 tgt idx)

-- ============================================================================
-- Claim C6 (onReorder fires iff the index changed)
-- ============================================================================

/-- Claim C6: on release with the resolved target equal to the source
container, `onReorder` fires iff `fromIndex` differs from `toIndex` (given the
container is still registered with an `onReorder` callback), and in both
variants a reorder event never carries equal indices. -/
theorem C6_reorder_iff_index_changed :
    (∀ (s : EngineState1) i f t,
      Event.reorder i f t ∈ (handleMouseUp1 s).2 → f ≠ t) ∧
    (∀ (s : EngineState2) tgt idx i f t,
      Event.reorder i f t ∈ (handleDrop2 s tgt idx).2 → f ≠ t) ∧
    (∀ (s : EngineState1) dd dt tc, s.dragData = some dd →
      s.dropTarget = some dt → dt.containerId = dd.sourceContainerId →
      lookupA s.containers dt.containerId = some tc → tc.hasOnReorder = true →
      (handleMouseUp1 s).2 =
        if dd.sourceIndex ≠ dt.index then
          [Event.reorder dd.id dd.sourceIndex dt.index]
        else []) ∧
    (∀ (s : EngineState2) dd sc idx, s.dragData = some dd →
      lookupA s.containers dd.sourceContainerId = some sc →
      sc.hasOnReorder = true →
      (handleDrop2 s (some dd.sourceContainerId) idx).2 =
        if idx ≠ dd.sourceIndex then
          [Event.reorder dd.id dd.sourceIndex idx]
        else []) := by
  refine ⟨?_, ?_, ?_, ?_⟩
  · intro s i f t hmem
    rcases handleMouseUp1_events_shape s with h |
      ⟨dd, dt, tc, _, _, _, _, hne, _, hev⟩ | ⟨dd, dt, tc, _, _, _, _, _, hev⟩
    · rw [h] at hmem
      simp at hmem
    · rw [hev] at hmem
      simp only [List.mem_singleton, Event.reorder.injEq] at hmem
      obtain ⟨_, hf, ht2⟩ := hmem
      rw [hf, ht2]
      exact hne
    · rw [hev] at hmem
      simp at hmem
  · intro s tgt idx i f t hmem
    rcases handleDrop2_events_shape s tgt idx with h |
      ⟨dd, sc, _, _, _, hidx, _, hev⟩ | ⟨dd, targetId, tc, _, _, _, _, _, hev⟩
    · rw [h] at hmem
      simp at hmem
    · rw [hev] at hmem
      simp only [List.mem_singleton, Event.reorder.injEq] at hmem
      obtain ⟨_, hf, ht2⟩ := hmem
      rw [hf, ht2]
      exact fun hc => hidx hc.symm
    · rw [hev] at hmem
      simp at hmem
  · intro s dd dt tc hdd hdt hsame hl hr
    have hl2 : lookupA s.containers dd.sourceContainerId = some tc := hsame ▸ hl
    by_cases hne : dd.sourceIndex = dt.index <;>
      simp [handleMouseUp1, hdd, hdt, hsame, hl2, hr, hne]
  · intro s dd sc idx hdd hl hr
    by_cases hidx : idx = dd.sourceIndex <;>
      simp [handleDrop2, hdd, hl, hr, hidx]

/-- Variant 1 registry entry used by the concrete release examples. -/
def exConfig1 : ContainerConfig :=
  ⟨"col", ["card"], some Direction.vertical, 0, true, true⟩

/-- Variant 1 cross-container target registry entry. -/
def exConfigDst : ContainerConfig :=
  ⟨"dst", ["card"], some Direction.vertical, 1, true, true⟩

/-- DOM flags during the example drags. -/
def exDom : DomFlags := ⟨true, "col", 0, some ("col", 0)⟩

/-- Variant 1 state: item `a` dragged from `col` index `0`, resolved target
`col` index `2`. -/
def c6State1 : EngineState1 :=
  ⟨[("col", exConfig1)], some ⟨"a", "card", "col", 0⟩, some ⟨"col", 2⟩, exDom⟩

/-- Variant 2 state: item `a` dragged from `col` index `0`. -/
def c6State2 : EngineState2 :=
  ⟨[("col", exContainer)], some exDragData, [("col", exItems)],
    some "col", 0, [], true⟩

/-- Claim C6 witness: same-container release at index `2` from index `0` fires
exactly one reorder in each variant. -/
theorem C6_witness :
    (handleMouseUp1 c6State1).2 = [Event.reorder "a" 0 2] ∧
    (handleDrop2 c6State2 (some "col") 2).2 = [Event.reorder "a" 0 2] := by
  constructor
  · have h := C6_reorder_iff_index_changed.2.2.1 c6State1 ⟨"a", "card", "col", 0⟩
      ⟨"col", 2⟩ exConfig1 rfl rfl rfl (by simp [c6State1, lookupA]) rfl
    rw [h]
    norm_num
  · have h := C6_reorder_iff_index_changed.2.2.2 c6State2 exDragData exContainer
      2 rfl (by simp [c6State2, exDragData, lookupA]) rfl
    rw [show (some "col" : Option String) = some exDragData.sourceContainerId
      from rfl, h]
    norm_num [exDragData]

-- ============================================================================
-- Claim C7 (onItemMove cross-container, unconditional in the index)
-- ============================================================================

/-- Claim C7: every `onItemMove` invocation carries distinct source and target
container ids, and whenever the resolved target differs from the source (and
the target is registered with an `onItemMove` callback) the release fires
`onItemMove` unconditionally — even when `toIndex` equals `fromIndex`. -/
theorem C7_move_always_cross_container :
    (∀ (s : EngineState1) i fc tc f t,
      Event.move i fc tc f t ∈ (handleMouseUp1 s).2 → fc ≠ tc) ∧
    (∀ (s : EngineState2) tgt idx i fc tc f t,
      Event.move i fc tc f t ∈ (handleDrop2 s tgt idx).2 → fc ≠ tc) ∧
    (∀ (s : EngineState1) dd dt tc, s.dragData = some dd →
      s.dropTarget = some dt → dt.containerId ≠ dd.sourceContainerId →
      lookupA s.containers dt.containerId = some tc → tc.hasOnItemMove = true →
      (handleMouseUp1 s).2 =
        [Event.move dd.id dd.sourceContainerId dt.containerId
          dd.sourceIndex dt.index]) ∧
    (∀ (s : EngineState2) dd targetId tc idx, s.dragData = some dd →
      targetId ≠ dd.sourceContainerId → lookupA s.containers targetId = some tc →
      tc.hasOnItemMove = true →
      (handleDrop2 s (some targetId) idx).2 =
        [Event.move dd.id dd.sourceContainerId targetId dd.sourceIndex idx]) := by
  refine ⟨?_, ?_, ?_, ?_⟩
  · intro s i fc tc f t hmem
    rcases handleMouseUp1_events_shape s with h |
      ⟨dd, dt, tc1, _, _, _, _, _, _, hev⟩ |
      ⟨dd, dt, tc1, _, _, _, hne, _, hev⟩
    · rw [h] at hmem
      simp at hmem
    · rw [hev] at hmem
      simp at hmem
    · rw [hev] at hmem
      simp only [List.mem_singleton, Event.move.injEq] at hmem
      obtain ⟨_, hfc, htc, _, _⟩ := hmem
      rw [hfc, htc]
      exact fun hc => hne hc.symm
  · intro s tgt idx i fc tc f t hmem
    rcases handleDrop2_events_shape s tgt idx with h |
      ⟨dd, sc, _, _, _, _, _, hev⟩ | ⟨dd, targetId, tc1, _, _, hne, _, _, hev⟩
    · rw [h] at hmem
      simp at hmem
    · rw [hev] at hmem
      simp at hmem
    · rw [hev] at hmem
      simp only [List.mem_singleton, Event.move.injEq] at hmem
      obtain ⟨_, hfc, htc, _, _⟩ := hmem
      rw [hfc, htc]
      exact fun hc => hne hc.symm
  · intro s dd dt tc hdd hdt hdiff hl hm
    simp [handleMouseUp1, hdd, hdt, hdiff, hl, hm]
  · intro s dd targetId tc idx hdd hdiff hl hm
    simp [handleDrop2, hdd, hdiff, hl, hm]

/-- Variant 1 state for a cross-container drop: item `a` from `col` index `0`,
resolved target `dst` index `0` — the numeric indices match. -/
def c7State1 : EngineState1 :=
  ⟨[("col", exConfig1), ("dst", exConfigDst)],
    some ⟨"a", "card", "col", 0⟩, some ⟨"dst", 0⟩, exDom⟩

/-- Variant 2 registry entry for the cross-container target. -/
def exContainerDst : ContainerData :=
  ⟨"dst", some Direction.vertical, ["card"], some 1, true, true⟩

/-- Variant 2 state for a cross-container drop of item `a` out of `col`. -/
def c7State2 : EngineState2 :=
  ⟨[("col", exContainer), ("dst", exContainerDst)], some exDragData,
    [("col", exItems), ("dst", [])], some "dst", 0, [], true⟩

/-- Claim C7 witness: a cross-container release fires exactly one `onItemMove`
in each variant even though `toIndex = fromIndex = 0`. -/
theorem C7_witness :
    (handleMouseUp1 c7State1).2 = [Event.move "a" "col" "dst" 0 0] ∧
    (handleDrop2 c7State2 (some "dst") 0).2 = [Event.move "a" "col" "dst" 0 0] := by
  constructor
  · exact C7_move_always_cross_container.2.2.1 c7State1 ⟨"a", "card", "col", 0⟩
      ⟨"dst", 0⟩ exConfigDst rfl rfl (by simp) (by simp [c7State1, lookupA]) rfl
  · exact C7_move_always_cross_container.2.2.2 c7State2 exDragData "dst"
      exContainerDst 0 rfl (by simp [exDragData])
      (by simp [c7State2, lookupA]) rfl

-- ============================================================================
-- Claim C8 (release without a target is a no-op cancellation)
-- ============================================================================

/-- Claim C8: releasing with no resolved drop target fires no callback; in
variant 1 the dragged element's `display` suppression is lifted while its DOM
container and index — never touched by the engine — stay the original ones and
the placeholder is removed; in variant 2 no callback fires either, all
transforms are cleared and the session ends. -/
theorem C8_release_without_target (s : EngineState1) (dd : DragData1)
    (s2 : EngineState2) (dd2 : DragData2) (idx : Int)
    (h1 : s.dragData = some dd) (h2 : s.dropTarget = none)
    (h3 : s2.dragData = some dd2) :
    (handleMouseUp1 s).2 = [] ∧
    (handleMouseUp1 s).1.dom.draggedHidden = false ∧
    (handleMouseUp1 s).1.dom.draggedElemContainer = s.dom.draggedElemContainer ∧
    (handleMouseUp1 s).1.dom.draggedElemIndex = s.dom.draggedElemIndex ∧
    (handleMouseUp1 s).1.dom.placeholder = none ∧
    (handleMouseUp1 s).1.dragData = none ∧
    (handleDrop2 s2 none idx).2 = [] ∧
    (handleDrop2 s2 none idx).1.transformed = [] ∧
    (handleDrop2 s2 none idx).1.dragData = none := by
  refine ⟨?_, ?_, ?_, ?_, ?_, ?_, ?_, ?_, ?_⟩ <;>
    simp [handleMouseUp1, handleDrop2, h1, h2, h3]

/-- Variant 1 state with the pointer outside every eligible container: the
resolved drop target is absent. -/
def c8State1 : EngineState1 :=
  ⟨[("col", exConfig1)], some ⟨"a", "card", "col", 0⟩, none, exDom⟩

/-- Claim C8 witness: the no-target release on concrete states fires nothing
and restores the dragged element in place. -/
theorem C8_witness :
    (handleMouseUp1 c8State1).2 = [] ∧
    (handleMouseUp1 c8State1).1.dom.draggedHidden = false ∧
    (handleMouseUp1 c8State1).1.dom.draggedElemContainer = "col" ∧
    (handleMouseUp1 c8State1).1.dom.draggedElemIndex = 0 ∧
    (handleDrop2 c6State2 none 0).2 = [] := by
  have h := C8_release_without_target c8State1 ⟨"a", "card", "col", 0⟩
    c6State2 exDragData 0 rfl rfl rfl
  exact ⟨h.1, h.2.1, h.2.2.1.trans rfl, h.2.2.2.1.trans rfl, h.2.2.2.2.2.2.1⟩

-- ============================================================================
-- Claim C3 (insertion index always in [0, N]) — violated by variant 2
-- ============================================================================

/-- Initial variant 2 provider state for the stationary-click gesture: one
vertical container `col` accepting `card` with both callbacks registered. -/
def c3State0 : EngineState2 :=
  ⟨[("col", exContainer)], none, [], none, -1, [], false⟩

/-- DOM contents for the stationary-click gesture: three stacked cards. -/
def c3Dom : String → List ItemData := fun cid =>
  if cid = "col" then
    [⟨"a", ⟨0, 0, 100, 40⟩⟩, ⟨"b", ⟨0, 40, 100, 40⟩⟩, ⟨"c", ⟨0, 80, 100, 40⟩⟩]
  else []

/-- State right after pointer-down on card `a` (variant 2 `startDrag`). -/
def c3Started : EngineState2 := startDrag2 c3Dom c3State0 "a" "card" "col" 100 40

/-- Claim C3, violated by variant 2: a pointer-down on card `a` followed by a
pointer-up with no intervening pointer-move releases with the portal's initial
`currentTargetRef` — `{containerId: sourceContainerId, previewIndex: -1}` — and
`handleDrop` fires `onReorder` with `toIndex = -1`, outside `[0, N]` for the
`N = 2` non-dragged items of `col`. -/
theorem C3_stationary_release_fires_negative_index :
    (portalMouseUp c3Started (initialPortalTarget "col")).2 =
      [Event.reorder "a" 0 (-1)] ∧
    ¬((0 : Int) ≤ -1) ∧
    (nonDragged (c3Dom "col") "a").length = 2 := by
  refine ⟨?_, by decide, by decide⟩
  decide

-- ============================================================================
-- Claim C4 (pointer-down while a session is active) — not ignored: replaced
-- ============================================================================

/-- DOM children of the example column for variant 1 `startDrag`. -/
def c4Children : String → List String := fun cid =>
  if cid = "col" then ["a", "b", "c"] else []

/-- Variant 1 state with a session for card `a` already active. -/
def c4Active : EngineState1 :=
  ⟨[("col", exConfig1)], some ⟨"a", "card", "col", 0⟩, some ⟨"col", 0⟩, exDom⟩

/-- Claim C4 counterexample: with the session for `a` active, a pointer-down on
card `b` is not ignored — `startDrag` installs a new session for `b`,
replacing the active one. -/
theorem C4_counterexample :
    c4Active.dragData = some ⟨"a", "card", "col", 0⟩ ∧
    (startDrag1 c4Children c4Active "b" "card" "col").dragData =
      some ⟨"b", "card", "col", 1⟩ ∧
    (startDrag1 c4Children c4Active "b" "card" "col").dragData ≠
      c4Active.dragData := by
  refine ⟨rfl, ?_, ?_⟩ <;> decide

/-- Claim C4, amended: a pointer-down always installs a fresh session for the
pressed item — replacing any active session rather than being ignored — in
both variants; the single session slot still means at most one `DragSession`
exists at any time. -/
theorem C4_amended_new_pointer_down_replaces (childrenOf : String → List String)
    (s : EngineState1) (id type containerId : String)
    (domItems : String → List ItemData) (s2 : EngineState2)
    (id2 type2 containerId2 : String) (itemWidth itemHeight : ℚ) :
    ((startDrag1 childrenOf s id type containerId).dragData.map
      (fun dd => (dd.id, dd.type, dd.sourceContainerId)) =
        some (id, type, containerId)) ∧
    ((startDrag2 domItems s2 id2 type2 containerId2 itemWidth
        itemHeight).dragData.map
      (fun dd => (dd.id, dd.type, dd.sourceContainerId)) =
        some (id2, type2, containerId2)) := by
  constructor <;> simp [startDrag1, startDrag2]

-- ============================================================================
-- Claim C5 (guarded registration upsert) — variant 2 upserts unconditionally
-- ============================================================================

/-- Existing variant 2 registry entry backed by node `0`. -/
def c5Existing : ContainerData := ⟨"c", none, ["t"], some 0, false, false⟩

/-- Variant 2 registry holding the existing entry. -/
def c5Map : List (String × ContainerData) := [("c", c5Existing)]

/-- Environment in which every node is attached to the document. -/
def allAttached : Node → Bool := fun _ => true

/-- Claim C5 counterexample: variant 2 `registerContainer` overwrites an
existing registration for the same id even though the existing entry's node
`0` differs from the incoming node `1` and is still attached — the claim says
such a call is a no-op keeping the existing registration. -/
theorem C5_counterexample :
    lookupA c5Map "c" = some c5Existing ∧
    c5Existing.element = some 0 ∧
    allAttached 0 = true ∧
    c5Existing.element ≠ some 1 ∧
    registerContainer2 c5Map "c" ["t"] none (some 1) false false ≠ c5Map ∧
    lookupA (registerContainer2 c5Map "c" ["t"] none (some 1) false false) "c" =
      some ⟨"c", none, ["t"], some 1, false, false⟩ := by
  refine ⟨rfl, rfl, rfl, ?_, ?_, rfl⟩ <;> decide

/-- Claim C5, amended: variant 1 `registerContainer` implements the guarded
upsert of section 4.1 — a no-op when an existing entry's node differs from the
incoming one and is still attached, an upsert keyed by id otherwise — and is
also a no-op on a null incoming element; variant 2 `registerContainer`
unconditionally upserts the entry. -/
theorem C5_amended_guarded_upsert (isConnected : Node → Bool)
    (containers : List (String × ContainerConfig))
    (containers2 : List (String × ContainerData)) (id : String)
    (acceptsTypes : List String) (direction : Option Direction) (el : Node)
    (elOpt : Option Node) (hasOnReorder hasOnItemMove : Bool) :
    registerContainer1 isConnected containers id acceptsTypes direction
        (some el) hasOnReorder hasOnItemMove =
      registerSpec isConnected containers id acceptsTypes direction el
        hasOnReorder hasOnItemMove ∧
    registerContainer1 isConnected containers id acceptsTypes direction none
        hasOnReorder hasOnItemMove = containers ∧
    registerContainer2 containers2 id acceptsTypes direction elOpt
        hasOnReorder hasOnItemMove =
      insertA containers2 id
        ⟨id, direction, acceptsTypes, elOpt, hasOnReorder, hasOnItemMove⟩ :=
  ⟨rfl, rfl, rfl⟩

-- ============================================================================
-- Claim C9 (auto-scroll frame behavior)
-- ============================================================================

/-- Number of positions at which two element lists differ. -/
def countChangedPairs (as bs : List ScrollEl) : Nat :=
  ((as.zip bs).filter (fun p => p.1 ≠ p.2)).length

/-- A list compared with itself has no changed positions. -/
theorem countChangedPairs_self (l : List ScrollEl) : countChangedPairs l l = 0 := by
  induction l with
  | nil => rfl
  | cons a rest ih => simpa [countChangedPairs, List.zip_cons_cons] using ih

/-- Cons unfolding for `countChangedPairs`. -/
theorem countChangedPairs_cons (a b : ScrollEl) (as bs : List ScrollEl) :
    countChangedPairs (a :: as) (b :: bs) =
      countChangedPairs as bs + (if a = b then 0 else 1) := by
  by_cases h : a = b <;>
    simp [countChangedPairs, List.zip_cons_cons, List.filter_cons, h]

/-- Variant 1 `performAutoScroll` satisfies the section 4.4 frame contract:
(1) at most one container's offsets change per frame; (2) with the pointer
inside the top-edge threshold of a vertically scrollable container with
remaining scroll-up room, `scrollTop` strictly decreases, dropping by exactly
`SCROLL_SPEED` whenever at least that much room remains (and never below `0`);
(3) once the scroll-up room is exhausted the offset stops changing while the
pointer stays in the zone; the per-frame increment is the fixed
`SCROLL_SPEED = 12`, within the stated 12-15 units. -/
theorem performAutoScroll1_frame_props :
    (∀ (x y : ℚ) (els : List ScrollEl),
      countChangedPairs els (performAutoScroll x y els).1 ≤ 1) ∧
    (∀ (x y : ℚ) (el : ScrollEl), el.vScrollable = true →
      el.hScrollable = false → y < el.rectTop + SCROLL_THRESHOLD →
      0 < el.scrollTop →
      (performAutoScroll x y [el]).1 =
        [{ el with scrollTop := max 0 (el.scrollTop - SCROLL_SPEED) }] ∧
      max 0 (el.scrollTop - SCROLL_SPEED) < el.scrollTop ∧
      (SCROLL_SPEED ≤ el.scrollTop →
        el.scrollTop - max 0 (el.scrollTop - SCROLL_SPEED) = SCROLL_SPEED)) ∧
    (∀ (x y : ℚ) (el : ScrollEl), el.hScrollable = false → el.scrollTop = 0 →
      ¬(el.rectBottom - SCROLL_THRESHOLD < y) →
      (performAutoScroll x y [el]).1 = [el]) ∧
    (12 : ℚ) ≤ SCROLL_SPEED ∧ SCROLL_SPEED ≤ 15 := by
  refine ⟨?_, ?_, ?_, by norm_num [SCROLL_SPEED], by norm_num [SCROLL_SPEED]⟩
  · intro x y els
    induction els with
    | nil => simp [performAutoScroll, countChangedPairs]
    | cons el rest ih =>
      simp only [performAutoScroll]
      cases hr : (scrollElementStep x y el).2
      · simpa [hr, countChangedPairs_cons] using ih
      · simp only [hr, if_true]
        rw [countChangedPairs_cons, countChangedPairs_self]
        by_cases h : el = (scrollElementStep x y el).1
        · rw [if_pos h]
          decide
        · rw [if_neg h]
  · intro x y el hv hh hy hst
    have hstep : scrollElementStep x y el =
        ({ el with scrollTop := max 0 (el.scrollTop - SCROLL_SPEED) }, true) := by
      simp [scrollElementStep, scrollVStep, scrollHStep, hv, hh, hy, hst]
    refine ⟨by simp [performAutoScroll, hstep], ?_, ?_⟩
    · exact max_lt hst (by
        have : (0 : ℚ) < SCROLL_SPEED := by norm_num [SCROLL_SPEED]
        linarith)
    · intro hle
      rw [max_eq_right (by linarith)]
      ring
  · intro x y el hh hst hbot
    cases hv : el.vScrollable <;>
      simp [performAutoScroll, scrollElementStep, scrollVStep, scrollHStep,
        hv, hh, hst, hbot]

/-- Scrollable column under the pointer: 300 units of scroll-up room. -/
def c9El : ScrollEl := ⟨true, false, 100, 0, 500, 200, 100, 100, 0, 300, 0, 100⟩

/-- The same column with its scroll-up room exhausted. -/
def c9ElTop : ScrollEl := ⟨true, false, 0, 0, 500, 200, 100, 100, 0, 300, 0, 100⟩

/-- Concrete frame of the variant 1 controller: with the pointer at `y = 30`
(inside the 60-unit top threshold), one frame scrolls the column from `100` to
`88`; at most one container changes; with the room exhausted the offset stays
`0`. -/
theorem performAutoScroll1_frame_example :
    (performAutoScroll 50 30 [c9El]).1 = [{ c9El with scrollTop := 88 }] ∧
    countChangedPairs [c9El] (performAutoScroll 50 30 [c9El]).1 ≤ 1 ∧
    (performAutoScroll 50 30 [c9ElTop]).1 = [c9ElTop] := by
  have h2 := performAutoScroll1_frame_props.2.1 50 30 c9El rfl rfl
    (by norm_num [c9El, SCROLL_THRESHOLD]) (by norm_num [c9El])
  refine ⟨h2.1.trans ?_, performAutoScroll1_frame_props.1 50 30 [c9El], ?_⟩
  · have : max (0 : ℚ) (c9El.scrollTop - SCROLL_SPEED) = 88 := by
      rw [max_eq_right (by norm_num [c9El, SCROLL_SPEED])]
      norm_num [c9El, SCROLL_SPEED]
    rw [this]
  · exact performAutoScroll1_frame_props.2.2.1 50 30 c9ElTop rfl rfl
      (by norm_num [c9ElTop, SCROLL_THRESHOLD])

-- ============================================================================
-- Variant 2 auto-scroll (DragPortal.handleMouseMove, source lines 1190-1243)
-- ============================================================================

/-- Direction in which a variant 2 auto-scroll interval moves its container. -/
inductive ScrollDir where
  | up
  | down
  | left
  | right
deriving DecidableEq, Repr

/-- Variant 2 `SCROLL_SPEED` (source line 750). -/
def SCROLL_SPEED2 : ℚ := 15

/-- One `window.setInterval` handle created by the variant 2 mousemove handler:
its timer id, the captured container, and the scroll direction of its
callback. -/
structure ScrollInterval where
  id : Nat
  containerId : String
  dir : ScrollDir
deriving DecidableEq, Repr

/-- Geometry of a variant 2 container element at mousemove time: its bounding
rect and scroll metrics. -/
structure ContainerGeom where
  rect : Rect
  scrollTop : ℚ
  scrollHeight : ℚ
  clientHeight : ℚ
  scrollLeft : ℚ
  scrollWidth : ℚ
  clientWidth : ℚ
deriving DecidableEq, Repr

/-- Edge checks the variant 2 mousemove handler runs for a winning container
(source lines 1216-1241): vertical (or unconstrained) containers scroll up or
down near the top or bottom edge with room; horizontal ones scroll left or
right near the left or right edge with room. Returns the direction of the
interval it creates, if any. -/
def intervalDirFor (clientX clientY : ℚ) (c : ContainerData)
    (g : ContainerGeom) : Option ScrollDir :=
  if c.direction = some Direction.vertical ∨ c.direction = none then
    if clientY < g.rect.top + SCROLL_THRESHOLD ∧ 0 < g.scrollTop then
      some ScrollDir.up
    else if g.rect.bottom - SCROLL_THRESHOLD < clientY ∧
        g.scrollTop < g.scrollHeight - g.clientHeight then
      some ScrollDir.down
    else none
  else if c.direction = some Direction.horizontal then
    if clientX < g.rect.left + SCROLL_THRESHOLD ∧ 0 < g.scrollLeft then
      some ScrollDir.left
    else if g.rect.right - SCROLL_THRESHOLD < clientX ∧
        g.scrollLeft < g.scrollWidth - g.clientWidth then
      some ScrollDir.right
    else none
  else none

/-- State threaded through the variant 2 mousemove container walk:
`smallestArea` (`none` models the initial `Infinity`), the current
`targetContainerId`, `scrollIntervalRef.current`, the set of intervals created
and not yet cleared, and the next timer id. -/
structure PortalScrollState where
  smallestArea : Option ℚ
  targetContainerId : Option String
  ref : Option ScrollInterval
  running : List ScrollInterval
  nextId : Nat
deriving DecidableEq, Repr

/-- One iteration of the variant 2 mousemove loop (source lines 1199-1243):
skip containers without a live element or not accepting the dragged type;
when the pointer is inside the rect and the area beats the smallest so far,
record the container as the target and, if an edge check fires, create a new
interval and overwrite `scrollIntervalRef.current` with it — without clearing
the previously created interval, which keeps running. -/
def stepContainerScroll (clientX clientY : ℚ) (draggedType : String)
    (geom : String → ContainerGeom) (st : PortalScrollState)
    (entry : String × ContainerData) : PortalScrollState :=
  if entry.2.element.isSome ∧ draggedType ∈ entry.2.acceptsTypes then
    let g := geom entry.1
    let area := g.rect.width * g.rect.height
    match st.smallestArea with
    | none =>
      if g.rect.left ≤ clientX ∧ clientX ≤ g.rect.right ∧
          g.rect.top ≤ clientY ∧ clientY ≤ g.rect.bottom then
        winScroll clientX clientY st entry.1 entry.2 g area
      else st
    | some a =>
      if (g.rect.left ≤ clientX ∧ clientX ≤ g.rect.right ∧
          g.rect.top ≤ clientY ∧ clientY ≤ g.rect.bottom) ∧ area < a then
        winScroll clientX clientY st entry.1 entry.2 g area
      else st
  else st
where
  /-- Body of the winning branch (source lines 1212-1241). -/
  winScroll (clientX clientY : ℚ) (st : PortalScrollState) (id : String)
      (c : ContainerData) (g : ContainerGeom) (area : ℚ) : PortalScrollState :=
    let st1 := { st with smallestArea := some area, targetContainerId := some id }
    match intervalDirFor clientX clientY c g with
    | some d =>
      { st1 with
        ref := some ⟨st1.nextId, id, d⟩,
        running := st1.running ++ [⟨st1.nextId, id, d⟩],
        nextId := st1.nextId + 1 }
    | none => st1

/-- `clearInterval(scrollIntervalRef.current)` (source lines 1193-1196,
1256-1258 and 1268-1270): stops only the interval the ref currently points at;
any interval the ref no longer points at keeps running. -/
def clearRefInterval (ref : Option ScrollInterval)
    (running : List ScrollInterval) : List ScrollInterval :=
  match ref with
  | some i => running.filter (fun j => j.id ≠ i.id)
  | none => running

/-- Auto-scroll portion of the variant 2 `DragPortal.handleMouseMove`
(source lines 1190-1243): clear the currently ref'd interval once, then walk
every registered container accumulating the smallest-area winner and its
interval. -/
def portalAutoScrollOnMove (clientX clientY : ℚ) (draggedType : String)
    (geom : String → ContainerGeom)
    (containers : List (String × ContainerData))
    (prevRef : Option ScrollInterval) (prevRunning : List ScrollInterval)
    (nextId : Nat) : PortalScrollState :=
  containers.foldl (stepContainerScroll clientX clientY draggedType geom)
    ⟨none, none, none, clearRefInterval prevRef prevRunning, nextId⟩

/-- One 16ms tick of a variant 2 interval callback —
`scrollEl.scrollTop -= SCROLL_SPEED` and its three mirrors (source lines
1219-1239) — with the DOM clamping the assigned offset into its legal range. -/
def tickOnce (g : ContainerGeom) (d : ScrollDir) : ContainerGeom :=
  match d with
  | ScrollDir.up => { g with scrollTop := max 0 (g.scrollTop - SCROLL_SPEED2) }
  | ScrollDir.down =>
    { g with scrollTop := min (max 0 (g.scrollHeight - g.clientHeight)) (g.scrollTop + SCROLL_SPEED2) }
  | ScrollDir.left =>
    { g with scrollLeft := max 0 (g.scrollLeft - SCROLL_SPEED2) }
  | ScrollDir.right =>
    { g with scrollLeft := min (max 0 (g.scrollWidth - g.clientWidth)) (g.scrollLeft + SCROLL_SPEED2) }

/-- Offsets of container `cid` after every running interval fires once
(each tick of the 16ms timer cadence). -/
def tickAll (running : List ScrollInterval) (geom : String → ContainerGeom)
    (cid : String) : ContainerGeom :=
  (running.filter (fun i => i.containerId = cid)).foldl
    (fun g i => tickOnce g i.dir) (geom cid)

/-- Large scrollable vertical container registered first. -/
def c9Outer : ContainerData :=
  ⟨"outer", some Direction.vertical, ["card"], some 0, true, true⟩

/-- Smaller scrollable vertical container nested inside, registered second. -/
def c9Inner : ContainerData :=
  ⟨"inner", some Direction.vertical, ["card"], some 1, true, true⟩

/-- Registry with the larger container ahead of the smaller one. -/
def c9Containers : List (String × ContainerData) :=
  [("outer", c9Outer), ("inner", c9Inner)]

/-- Geometry of the outer container: rect 400x600 at the origin, 600 units of
scroll-up room used down to `scrollTop = 100`. -/
def c9OuterGeom : ContainerGeom := ⟨⟨0, 0, 400, 600⟩, 100, 1200, 600, 0, 400, 400⟩

/-- Geometry of the inner container: rect 200x300 at `(10, 0)`,
`scrollTop = 100`. -/
def c9InnerGeom : ContainerGeom := ⟨⟨10, 0, 200, 300⟩, 100, 900, 300, 0, 200, 200⟩

/-- Geometry environment for the nested-containers frame. -/
def c9Geom : String → ContainerGeom := fun cid =>
  if cid = "inner" then c9InnerGeom else c9OuterGeom

/-- Claim C9, violated by the variant 2 auto-scroll: with the pointer at
`(50, 30)` inside both nested vertical containers and within the 60-unit top
threshold of each, both with scroll-up room, one mousemove leaves two intervals
running — the loop creates the outer container's interval, then overwrites the
ref with the inner one's without clearing the first. The next 16ms tick moves
both containers' `scrollTop` from `100` to `85`, so two containers scroll in
the same frame; and the mouseup cleanup, clearing only the ref'd interval,
leaves the outer container's interval running (a leaked timer). -/
theorem C9_two_containers_scroll_same_frame :
    (portalAutoScrollOnMove 50 30 "card" c9Geom c9Containers none [] 0).running =
      [⟨0, "outer", ScrollDir.up⟩, ⟨1, "inner", ScrollDir.up⟩] ∧
    (tickAll (portalAutoScrollOnMove 50 30 "card" c9Geom c9Containers
        none [] 0).running c9Geom "outer").scrollTop = 85 ∧
    (tickAll (portalAutoScrollOnMove 50 30 "card" c9Geom c9Containers
        none [] 0).running c9Geom "inner").scrollTop = 85 ∧
    (c9Geom "outer").scrollTop = 100 ∧
    (c9Geom "inner").scrollTop = 100 ∧
    clearRefInterval
        (portalAutoScrollOnMove 50 30 "card" c9Geom c9Containers none [] 0).ref
        (portalAutoScrollOnMove 50 30 "card" c9Geom c9Containers
          none [] 0).running =
      [⟨0, "outer", ScrollDir.up⟩] := by
  have hgeo : c9Geom "outer" = c9OuterGeom := by simp [c9Geom]
  have hgei : c9Geom "inner" = c9InnerGeom := by simp [c9Geom]
  have h1 : stepContainerScroll 50 30 "card" c9Geom ⟨none, none, none, [], 0⟩
      ("outer", c9Outer) =
      ⟨some 240000, some "outer", some ⟨0, "outer", ScrollDir.up⟩,
        [⟨0, "outer", ScrollDir.up⟩], 1⟩ := by
    norm_num [stepContainerScroll, stepContainerScroll.winScroll,
      intervalDirFor, hgeo, c9Outer, c9OuterGeom, SCROLL_THRESHOLD,
      Rect.bottom, Rect.right]
  have h2 : stepContainerScroll 50 30 "card" c9Geom
      ⟨some 240000, some "outer", some ⟨0, "outer", ScrollDir.up⟩,
        [⟨0, "outer", ScrollDir.up⟩], 1⟩ ("inner", c9Inner) =
      ⟨some 60000, some "inner", some ⟨1, "inner", ScrollDir.up⟩,
        [⟨0, "outer", ScrollDir.up⟩, ⟨1, "inner", ScrollDir.up⟩], 2⟩ := by
    norm_num [stepContainerScroll, stepContainerScroll.winScroll,
      intervalDirFor, hgei, c9Inner, c9InnerGeom, SCROLL_THRESHOLD,
      Rect.bottom, Rect.right]
  have hfold : portalAutoScrollOnMove 50 30 "card" c9Geom c9Containers
      none [] 0 =
      ⟨some 60000, some "inner", some ⟨1, "inner", ScrollDir.up⟩,
        [⟨0, "outer", ScrollDir.up⟩, ⟨1, "inner", ScrollDir.up⟩], 2⟩ := by
    simp only [portalAutoScrollOnMove, c9Containers, clearRefInterval,
      List.foldl_cons, List.foldl_nil, h1, h2]
  have hmax : (max 0 (100 - SCROLL_SPEED2) : ℚ) = 85 := by
    rw [max_eq_right (by norm_num [SCROLL_SPEED2])]
    norm_num [SCROLL_SPEED2]
  refine ⟨by rw [hfold], ?_, ?_, by simp [hgeo, c9OuterGeom],
    by simp [hgei, c9InnerGeom], ?_⟩
  · rw [hfold]
    simp [tickAll, tickOnce, hgeo, c9OuterGeom, hmax]
  · rw [hfold]
    simp [tickAll, tickOnce, hgei, c9InnerGeom, hmax]
  · rw [hfold]
    simp [clearRefInterval]

end ReactDnd
